import Mathlib

/-!
Verification of the `wasm-hello` state holder (`src/wasm-hello/src/lib.rs`).

The program keeps a single record of five fields (an `i32` counter, three
strings, an `f64` decimal) behind a `LazyLock<Mutex<_>>`, and exposes
lock-guarded getters and setters.  This file embeds the record, its
accessor methods and the exported `#[wasm_bindgen]` functions, and proves
the specified properties about them.
-/

/-- Model of an IEEE-754 binary64 value as the program uses it: NaN, the two
infinities, or a finite value.  Finite values are carried exactly as
rationals: `set_decimal` only compares and copies floats (`max`/`min`), it
never performs rounding arithmetic, so the order-embedding of the finite
doubles into `ℚ` is exact for every operation modelled here. -/
inductive F64 where
  | nan : F64
  | neg_inf : F64
  | inf : F64
  | finite (q : ℚ) : F64
deriving DecidableEq

/-- The `≤` comparison of IEEE doubles on non-NaN operands; any comparison
with NaN is false. -/
def F64.ble : F64 → F64 → Bool
  | .nan, _ => false
  | _, .nan => false
  | .neg_inf, _ => true
  | _, .neg_inf => false
  | _, .inf => true
  | .inf, _ => false
  | .finite a, .finite b => decide (a ≤ b)

/-- Rust `f64::max` (IEEE-754 maxNum): if one argument is NaN the other is
returned; otherwise the larger argument. -/
def F64.max (x y : F64) : F64 :=
  match x, y with
  | .nan, _ => y
  | _, .nan => x
  | _, _ => if F64.ble x y then y else x

/-- Rust `f64::min` (IEEE-754 minNum): if one argument is NaN the other is
returned; otherwise the smaller argument. -/
def F64.min (x y : F64) : F64 :=
  match x, y with
  | .nan, _ => y
  | _, .nan => x
  | _, _ => if F64.ble x y then x else y

/-- `x` lies in the closed interval `[-10.0, 10.0]` (false for NaN). -/
def F64.inRange (x : F64) : Bool :=
  F64.ble (.finite (-10)) x && F64.ble x (.finite 10)

/-- Two's-complement wrap of an integer into the `i32` range, the
release-build overflow behaviour of Rust's `+=` on `i32`
(`2147483648 = 2^31`, `4294967296 = 2^32`). -/
def wrapI32 (n : Int) : Int :=
  (n + 2147483648) % 4294967296 - 2147483648

/-- The state record of `lib.rs`: counter, message, gum, ice shape, decimal. -/
structure HelloState where
  counter : Int
  message : String
  gum : String
  ice_shape : String
  decimal : F64
deriving DecidableEq

/-- `HelloState::new`: the default values. -/
def HelloState.new : HelloState :=
  { counter := 0
    message := "Rust WASM is so Sigma!"
    gum := "Hubba Bubba"
    ice_shape := "Cube"
    decimal := .finite 0 }

/-- `HelloState::get_counter`. -/
def HelloState.get_counter (s : HelloState) : Int := s.counter

/-- `HelloState::increment_counter`: `self.counter += 1` on `i32`. -/
def HelloState.increment_counter (s : HelloState) : HelloState :=
  { s with counter := wrapI32 (s.counter + 1) }

/-- `HelloState::get_message` (`clone` is the identity on values). -/
def HelloState.get_message (s : HelloState) : String := s.message

/-- `HelloState::set_message`. -/
def HelloState.set_message (s : HelloState) (m : String) : HelloState :=
  { s with message := m }

/-- `HelloState::get_fave_gum`. -/
def HelloState.get_fave_gum (s : HelloState) : String := s.gum

/-- `HelloState::set_fave_gum`. -/
def HelloState.set_fave_gum (s : HelloState) (g : String) : HelloState :=
  { s with gum := g }

/-- `HelloState::get_fave_ice_shape`. -/
def HelloState.get_fave_ice_shape (s : HelloState) : String := s.ice_shape

/-- `HelloState::set_fave_ice_shape`. -/
def HelloState.set_fave_ice_shape (s : HelloState) (sh : String) : HelloState :=
  { s with ice_shape := sh }

/-- `HelloState::get_decimal`. -/
def HelloState.get_decimal (s : HelloState) : F64 := s.decimal

/-- `HelloState::set_decimal`: `self.decimal = value.max(-10.0).min(10.0)`. -/
def HelloState.set_decimal (s : HelloState) (value : F64) : HelloState :=
  { s with decimal := (value.max (.finite (-10))).min (.finite 10) }

/-!
The exported `#[wasm_bindgen]` functions.  Each locks the global singleton,
runs the corresponding method and releases the lock; here that is explicit
state passing.  Getters return the value together with the state they leave
behind, so that their frame effect is part of the statement.
-/

/-- Exported `wasm_init`: overwrite the counter with the given `i32`. -/
def wasm_init (initial_counter : Int) (s : HelloState) : HelloState :=
  { s with counter := initial_counter }

/-- Exported `get_counter`. -/
def get_counter (s : HelloState) : Int × HelloState :=
  (s.get_counter, s)

/-- Exported `increment_counter`. -/
def increment_counter (s : HelloState) : HelloState :=
  s.increment_counter

/-- Exported `get_message`. -/
def get_message (s : HelloState) : String × HelloState :=
  (s.get_message, s)

/-- Exported `set_message`. -/
def set_message (m : String) (s : HelloState) : HelloState :=
  s.set_message m

/-- Exported `get_fave_gum`. -/
def get_fave_gum (s : HelloState) : String × HelloState :=
  (s.get_fave_gum, s)

/-- Exported `set_fave_gum`. -/
def set_fave_gum (g : String) (s : HelloState) : HelloState :=
  s.set_fave_gum g

/-- Exported `get_fave_ice_shape`. -/
def get_fave_ice_shape (s : HelloState) : String × HelloState :=
  (s.get_fave_ice_shape, s)

/-- Exported `set_fave_ice_shape`. -/
def set_fave_ice_shape (sh : String) (s : HelloState) : HelloState :=
  s.set_fave_ice_shape sh

/-- Exported `get_decimal`. -/
def get_decimal (s : HelloState) : F64 × HelloState :=
  (s.get_decimal, s)

/-- Exported `set_decimal`. -/
def set_decimal (v : F64) (s : HelloState) : HelloState :=
  s.set_decimal v

/-- One invocation of a public operation of the module. -/
inductive Op where
  | opWasmInit (n : Int)
  | opIncrementCounter
  | opGetCounter
  | opSetMessage (m : String)
  | opGetMessage
  | opSetFaveGum (g : String)
  | opGetFaveGum
  | opSetFaveIceShape (sh : String)
  | opGetFaveIceShape
  | opSetDecimal (v : F64)
  | opGetDecimal
deriving DecidableEq

/-- A value returned to the host by a public operation. -/
inductive OpRet where
  | retUnit
  | retInt (n : Int)
  | retStr (s : String)
  | retFlt (v : F64)
deriving DecidableEq

/-- Run one public operation on the state, producing its return value and
the state it leaves behind. -/
def applyOp (s : HelloState) : Op → OpRet × HelloState
  | .opWasmInit n => (.retUnit, wasm_init n s)
  | .opIncrementCounter => (.retUnit, increment_counter s)
  | .opGetCounter => (.retInt (get_counter s).1, (get_counter s).2)
  | .opSetMessage m => (.retUnit, set_message m s)
  | .opGetMessage => (.retStr (get_message s).1, (get_message s).2)
  | .opSetFaveGum g => (.retUnit, set_fave_gum g s)
  | .opGetFaveGum => (.retStr (get_fave_gum s).1, (get_fave_gum s).2)
  | .opSetFaveIceShape sh => (.retUnit, set_fave_ice_shape sh s)
  | .opGetFaveIceShape => (.retStr (get_fave_ice_shape s).1, (get_fave_ice_shape s).2)
  | .opSetDecimal v => (.retUnit, set_decimal v s)
  | .opGetDecimal => (.retFlt (get_decimal s).1, (get_decimal s).2)

/-- Run a sequence of public operations, left to right. -/
def runOps (s : HelloState) : List Op → HelloState
  | [] => s
  | op :: rest => runOps (applyOp s op).2 rest

/-- The `Mutex<HelloState>` singleton: the guarded state together with the
poisoned flag that a panic while holding the lock would set. -/
structure LockedState where
  poisoned : Bool
  inner : HelloState
deriving DecidableEq

/-- A public call through `HELLO_STATE.lock().unwrap()`: acquiring the lock
fails exactly when the lock is poisoned by an earlier panic; otherwise the
operation body runs (no body panics, so the lock comes back unpoisoned). -/
def lockCall (ls : LockedState) (op : Op) : Except String (OpRet × LockedState) :=
  if ls.poisoned then .error "PoisonError"
  else
    .ok ((applyOp ls.inner op).1,
      { poisoned := false, inner := (applyOp ls.inner op).2 })

/-- Run a sequence of public calls against the lock-guarded singleton,
stopping at the first failure. -/
def runLocked (ls : LockedState) : List Op → Except String LockedState
  | [] => .ok ls
  | op :: rest =>
    match lockCall ls op with
    | .error e => .error e
    | .ok rls => runLocked rls.2 rest

/-- Modelled from the spec's words: the formula `max(-10.0, min(10.0, value))`
of §4.1 and §8, read with the NaN-ignoring IEEE maxNum/minNum semantics that
float `max`/`min` denote.  To be compared against the code's
`value.max(-10.0).min(10.0)`. -/
def specClamp (v : F64) : F64 :=
  F64.max (.finite (-10)) (F64.min (.finite 10) v)

/-! ## Helper lemmas -/

/-- The clamp the code computes, `value.max(-10.0).min(10.0)`, always lands
in `[-10, 10]`, whatever the input (NaN included). -/
theorem clamp_inRange (v : F64) :
    F64.inRange ((v.max (.finite (-10))).min (.finite 10)) = true := by
  rcases v with _ | _ | _ | q
  · decide
  · decide
  · decide
  · rcases lt_trichotomy q (-10) with h1 | h1 | h1
    · have ha : q ≤ -10 := le_of_lt h1
      have hb : ¬((10 : ℚ) ≤ q) := by linarith
      have hc : ((-10 : ℚ)) ≤ 10 := by norm_num
      simp [F64.max, F64.min, F64.ble, F64.inRange, ha, hb, hc]
    · subst h1; decide
    · rcases lt_trichotomy q 10 with h2 | h2 | h2
      · have ha : ¬(q ≤ -10) := by linarith
        have hb : q ≤ 10 := le_of_lt h2
        have hc : ((-10 : ℚ)) ≤ q := le_of_lt h1
        simp [F64.max, F64.min, F64.ble, F64.inRange, ha, hb, hc]
      · subst h2; decide
      · have ha : ¬(q ≤ -10) := by linarith
        have hb : ¬(q ≤ 10) := by linarith
        have hc : ((-10 : ℚ)) ≤ 10 := by norm_num
        simp [F64.max, F64.min, F64.ble, F64.inRange, ha, hb, hc]

/-- For non-NaN inputs the code's clamp agrees with the spec's formula
`max(-10.0, min(10.0, value))`. -/
theorem code_clamp_eq_specClamp (v : F64) (h : v ≠ F64.nan) :
    F64.min (F64.max v (.finite (-10))) (.finite 10) = specClamp v := by
  rcases v with _ | _ | _ | q
  · exact absurd rfl h
  · decide
  · decide
  · rcases lt_trichotomy q (-10) with h1 | h1 | h1
    · have ha : q ≤ -10 := le_of_lt h1
      have hb : ¬((10 : ℚ) ≤ q) := by linarith
      have hc : ¬(((-10 : ℚ)) ≤ q) := by linarith
      have hd : ((-10 : ℚ)) ≤ 10 := by norm_num
      simp [specClamp, F64.max, F64.min, F64.ble, ha, hb, hc, hd]
    · subst h1; decide
    · rcases lt_trichotomy q 10 with h2 | h2 | h2
      · have ha : ¬(q ≤ -10) := by linarith
        have hb : q ≤ 10 := le_of_lt h2
        have hc : ¬((10 : ℚ) ≤ q) := by linarith
        have hd : ((-10 : ℚ)) ≤ q := le_of_lt h1
        simp [specClamp, F64.max, F64.min, F64.ble, ha, hb, hc, hd]
      · subst h2; decide
      · have ha : ¬(q ≤ -10) := by linarith
        have hb : ¬(q ≤ 10) := by linarith
        have hc : ((10 : ℚ)) ≤ q := le_of_lt h2
        have hd : ((-10 : ℚ)) ≤ 10 := by norm_num
        simp [specClamp, F64.max, F64.min, F64.ble, ha, hb, hc, hd]

/-- Every public operation keeps the decimal field inside `[-10, 10]` once it
is there: only `set_decimal` writes it, and `set_decimal` clamps. -/
theorem applyOp_preserves_inRange (s : HelloState) (op : Op)
    (h : F64.inRange s.decimal = true) :
    F64.inRange (applyOp s op).2.decimal = true := by
  cases op <;> first | exact h | exact clamp_inRange _

/-- Evaluation bridge: `setDecimal(x)` then `getDecimal()` returns whatever
the clamp expression evaluates to, in any starting state. -/
theorem setDecimal_getDecimal_eval (x y : F64)
    (h : F64.min (F64.max x (.finite (-10))) (.finite 10) = y) :
    ∀ s : HelloState, (get_decimal (set_decimal x s)).1 = y :=
  fun _ => h

/-- `wrapI32` is the identity on the `i32` range. -/
theorem wrapI32_eq_self (n : Int) (h1 : -2147483648 ≤ n) (h2 : n ≤ 2147483647) :
    wrapI32 n = n := by
  unfold wrapI32
  omega

/-! ## Claim theorems -/

/-- C1 counterexample: at `v = NaN` the claim as stated fails.  The code
(`value.max(-10.0).min(10.0)`) stores `-10.0`, while the spec's formula
`max(-10.0, min(10.0, v))` evaluates to `10.0`, and the two differ. -/
theorem c1_counterexample :
    (get_decimal (set_decimal F64.nan HelloState.new)).1 = F64.finite (-10) ∧
    specClamp F64.nan = F64.finite 10 ∧
    (get_decimal (set_decimal F64.nan HelloState.new)).1 ≠ specClamp F64.nan := by
  refine ⟨by decide, by decide, by decide⟩

/-- C1 (amended): for every non-NaN float `v` and every state, `setDecimal(v)`
followed by `getDecimal()` returns `max(-10.0, min(10.0, v))`; in particular
`-10.0` and `10.0` are stored unchanged, `-10.0001` yields `-10.0` and
`10.0001` yields `10.0`.  (A NaN input yields `-10.0` instead.) -/
theorem c1_setDecimal_clamps (s : HelloState) (v : F64) (h : v ≠ F64.nan) :
    (get_decimal (set_decimal v s)).1 = specClamp v ∧
    (get_decimal (set_decimal (F64.finite (-10)) s)).1 = F64.finite (-10) ∧
    (get_decimal (set_decimal (F64.finite 10) s)).1 = F64.finite 10 ∧
    (get_decimal (set_decimal (F64.finite (-100001/10000)) s)).1 = F64.finite (-10) ∧
    (get_decimal (set_decimal (F64.finite (100001/10000)) s)).1 = F64.finite 10 := by
  refine ⟨code_clamp_eq_specClamp v h,
    setDecimal_getDecimal_eval _ _ (by decide) s,
    setDecimal_getDecimal_eval _ _ (by decide) s,
    setDecimal_getDecimal_eval _ _ ?_ s,
    setDecimal_getDecimal_eval _ _ ?_ s⟩
  · have h1 : ((-100001 : ℚ)) / 10000 ≤ -10 := by norm_num
    have h2 : ((-10 : ℚ)) ≤ 10 := by norm_num
    simp [F64.max, F64.min, F64.ble, h1, h2]
  · have h1 : ¬(((100001 : ℚ)) / 10000 ≤ -10) := by norm_num
    have h2 : ¬(((100001 : ℚ)) / 10000 ≤ 10) := by norm_num
    simp [F64.max, F64.min, F64.ble, h1, h2]

/-- C1 witness: the amended theorem applied at `v = 3.0`. -/
theorem c1_setDecimal_clamps_witness :
    (F64.finite 3 ≠ F64.nan) ∧
    ((get_decimal (set_decimal (F64.finite 3) HelloState.new)).1 = specClamp (F64.finite 3) ∧
     (get_decimal (set_decimal (F64.finite (-10)) HelloState.new)).1 = F64.finite (-10) ∧
     (get_decimal (set_decimal (F64.finite 10) HelloState.new)).1 = F64.finite 10 ∧
     (get_decimal (set_decimal (F64.finite (-100001/10000)) HelloState.new)).1
        = F64.finite (-10) ∧
     (get_decimal (set_decimal (F64.finite (100001/10000)) HelloState.new)).1
        = F64.finite 10) :=
  ⟨by decide, c1_setDecimal_clamps HelloState.new (F64.finite 3) (by decide)⟩

/-- C2: in every state reachable from the fresh state by any sequence of
public operations, the decimal field lies in the closed range `[-10, 10]`. -/
theorem c2_decimal_always_in_range (ops : List Op) :
    F64.inRange (runOps HelloState.new ops).decimal = true := by
  have key : ∀ (l : List Op) (s : HelloState), F64.inRange s.decimal = true →
      F64.inRange (runOps s l).decimal = true := by
    intro l
    induction l with
    | nil => intro s h; exact h
    | cons op rest ih =>
      intro s h
      exact ih _ (applyOp_preserves_inRange s op h)
  exact key ops HelloState.new (by decide)

/-- C3 counterexample: starting from counter `c = 2147483647` (`i32::MAX`),
one call to `incrementCounter()` wraps to `-2147483648`, not `c + 1`. -/
theorem c3_counterexample :
    (increment_counter (wasm_init 2147483647 HelloState.new)).counter = -2147483648 ∧
    (increment_counter (wasm_init 2147483647 HelloState.new)).counter ≠ 2147483647 + 1 := by
  refine ⟨by decide, by decide⟩

/-- C3 (amended): provided no `i32` overflow occurs (`-2^31 ≤ c` and
`c + k ≤ 2^31 - 1`), each of the `k` consecutive `incrementCounter()` calls
adds exactly 1 and the final counter equals `c + k`; at `i32::MAX` the
counter instead wraps. -/
theorem c3_increment_adds_one (s : HelloState) (c : Int) (k : Nat)
    (hlo : -2147483648 ≤ c) (hhi : c + k ≤ 2147483647) :
    (increment_counter^[k] (wasm_init c s)).counter = c + k := by
  induction k generalizing c with
  | zero => simp [wasm_init]
  | succ k ih =>
    have hstep : increment_counter (wasm_init c s) = wasm_init (wrapI32 (c + 1)) s := rfl
    have hin : wrapI32 (c + 1) = c + 1 := by
      refine wrapI32_eq_self _ (by omega) (by omega)
    rw [Function.iterate_succ_apply, hstep, hin, ih (c + 1) (by omega) (by omega)]
    omega

/-- C3 witness: the amended theorem at the spec's own scenario
`initialize(5)` then three increments, ending at 8. -/
theorem c3_increment_adds_one_witness :
    (-2147483648 ≤ (5 : Int) ∧ (5 : Int) + (3 : Nat) ≤ 2147483647) ∧
    (increment_counter^[(3 : Nat)] (wasm_init 5 HelloState.new)).counter = 5 + (3 : Nat) :=
  ⟨⟨by decide, by decide⟩,
   c3_increment_adds_one HelloState.new 5 3 (by decide) (by decide)⟩

/-- C4: for every `i32` value `n`, after `initialize(n)` (`wasm_init`),
`getCounter()` returns `n`. -/
theorem c4_init_then_get (s : HelloState) (n : Int)
    (h1 : -2147483648 ≤ n) (h2 : n ≤ 2147483647) :
    (get_counter (wasm_init n s)).1 = n := rfl

/-- C4 witness: the theorem applied at `n = 42`. -/
theorem c4_init_then_get_witness :
    (-2147483648 ≤ (42 : Int) ∧ (42 : Int) ≤ 2147483647) ∧
    (get_counter (wasm_init 42 HelloState.new)).1 = 42 :=
  ⟨⟨by decide, by decide⟩, c4_init_then_get HelloState.new 42 (by decide) (by decide)⟩

/-- C5: `initialize(n)` overwrites only the counter; message, gum, ice shape
and decimal are unchanged. -/
theorem c5_init_frame (s : HelloState) (n : Int) :
    (wasm_init n s).counter = n ∧
    (wasm_init n s).message = s.message ∧
    (wasm_init n s).gum = s.gum ∧
    (wasm_init n s).ice_shape = s.ice_shape ∧
    (wasm_init n s).decimal = s.decimal :=
  ⟨rfl, rfl, rfl, rfl, rfl⟩

/-- C6: set-then-get round-trip identity for all three string fields. -/
theorem c6_string_roundtrip (s : HelloState) (m : String) :
    (get_message (set_message m s)).1 = m ∧
    (get_fave_gum (set_fave_gum m s)).1 = m ∧
    (get_fave_ice_shape (set_fave_ice_shape m s)).1 = m :=
  ⟨rfl, rfl, rfl⟩

/-- C7: the fresh state's getters return 0, "Rust WASM is so Sigma!",
"Hubba Bubba", "Cube" and 0.0. -/
theorem c7_fresh_state :
    (get_counter HelloState.new).1 = 0 ∧
    (get_message HelloState.new).1 = "Rust WASM is so Sigma!" ∧
    (get_fave_gum HelloState.new).1 = "Hubba Bubba" ∧
    (get_fave_ice_shape HelloState.new).1 = "Cube" ∧
    (get_decimal HelloState.new).1 = F64.finite 0 :=
  ⟨rfl, rfl, rfl, rfl, rfl⟩

/-- C8: every public operation is total: starting from an unpoisoned lock,
any sequence of calls with any arguments runs to completion (`ok`), and the
lock is never poisoned, so the sole abnormal path (lock acquisition after a
prior panic) never arises. -/
theorem c8_ops_total (ls : LockedState) (ops : List Op) (h : ls.poisoned = false) :
    ∃ fin, runLocked ls ops = .ok fin ∧ fin.poisoned = false := by
  induction ops generalizing ls with
  | nil => exact ⟨ls, rfl, h⟩
  | cons op rest ih =>
    have hcall : lockCall ls op = .ok ((applyOp ls.inner op).1,
        { poisoned := false, inner := (applyOp ls.inner op).2 }) := by
      simp [lockCall, h]
    simp only [runLocked, hcall]
    exact ih _ rfl

/-- C8 witness: the theorem applied to a concrete unpoisoned lock and a
concrete call sequence. -/
theorem c8_ops_total_witness :
    (LockedState.mk false HelloState.new).poisoned = false ∧
    ∃ fin, runLocked (LockedState.mk false HelloState.new)
        [Op.opIncrementCounter, Op.opSetDecimal F64.nan, Op.opGetDecimal] = .ok fin ∧
      fin.poisoned = false :=
  ⟨rfl, c8_ops_total (LockedState.mk false HelloState.new) _ rfl⟩

/-- C9: `setDecimal(NaN)` followed by `getDecimal()` returns `-10.0`
(`NaN.max(-10.0) = -10.0`, then `(-10.0).min(10.0) = -10.0`), so even a NaN
input leaves the decimal inside `[-10, 10]`. -/
theorem c9_nan_clamps_to_lower_bound (s : HelloState) :
    (get_decimal (set_decimal F64.nan s)).1 = F64.finite (-10) ∧
    F64.inRange (set_decimal F64.nan s).decimal = true :=
  ⟨setDecimal_getDecimal_eval F64.nan _ (by decide) s, clamp_inRange F64.nan⟩

/-- C10: every getter leaves the entire state unchanged. -/
theorem c10_getters_pure (s : HelloState) :
    (get_counter s).2 = s ∧
    (get_message s).2 = s ∧
    (get_fave_gum s).2 = s ∧
    (get_fave_ice_shape s).2 = s ∧
    (get_decimal s).2 = s :=
  ⟨rfl, rfl, rfl, rfl, rfl⟩
